import Mathlib

/-!
Verification of the two HTTP service wrappers of this repository:
the Whisper transcription service (`src/whisper/app.py`) and the
VieNeu-TTS synthesis service (`src/tts/api_server.py`).

The Python handlers are shallowly embedded as pure Lean functions.
Python floats are modelled as rationals; the model runtimes
(`faster_whisper.WhisperModel`, `vieneu.FastVieNeuTTS`) are opaque
function records; a Python exception raised by a runtime call is an
`Except.error` carrying `str(e)`; an HTTP error response is a
constructor carrying the status code and the detail string.
-/

/-! ## Rounding

Python's `round(x, n)` rounds half to even.  `roundHalfEven` is that
rounding to an integer, `roundTo n` the n-decimal-digit version used by
the handlers (`round(seg.start, 2)`, `round(info.language_probability, 3)`,
`round(time.time() - _start_time, 1)`). -/

def roundHalfEven (x : ℚ) : ℤ :=
  if x - ⌊x⌋ < 1/2 then ⌊x⌋
  else if x - ⌊x⌋ > 1/2 then ⌊x⌋ + 1
  else if ⌊x⌋ % 2 = 0 then ⌊x⌋ else ⌊x⌋ + 1

def roundTo (digits : ℕ) (x : ℚ) : ℚ :=
  ((roundHalfEven (x * 10 ^ digits) : ℤ) : ℚ) / 10 ^ digits

/-- Python's `str.strip()`: remove whitespace from both ends. -/
def pyStrip (s : String) : String :=
  String.mk (((s.data.dropWhile Char.isWhitespace).reverse.dropWhile
    Char.isWhitespace).reverse)

/-! ## Synthesis service (`src/tts/api_server.py`) -/

namespace VieNeu

/-- The dict returned by `tts.get_preset_voice(vid)`: the opaque acoustic
codes under key `"codes"` and the reference text under key `"text"`
(`none` models a missing `"text"` key, read with `.get("text", "")` in
`list_voices` and indexed as `voice_data["text"]` in `synthesize`). -/
structure VoiceData where
  codes : List Nat
  text : Option String
deriving DecidableEq

/-- The opaque `FastVieNeuTTS` model handle.  `list_preset_voices` yields
`(description, voice_id)` pairs; `get_preset_voice` and `infer` may raise
(`Except.error` carries `str(e)`); `infer` may return `None`
(`.ok none`) or a waveform (`.ok (some wav)`). -/
structure FastVieNeuTTS where
  list_preset_voices : List (String × String)
  get_preset_voice : String → Except String VoiceData
  infer : String → List Nat → String → ℚ → ℤ → Except String (Option (List ℚ))

/-- `TTSRequest` pydantic model: the field values as parsed, before the
field-constraint validation. -/
structure TTSRequest where
  text : String
  voice : Option String
  temperature : ℚ
  max_chars_chunk : ℤ
  format : String
deriving DecidableEq

/-- The pydantic field constraints of `TTSRequest`:
`text`: `min_length=1, max_length=5000`; `temperature`: `ge=0.1, le=1.5`;
`max_chars_chunk`: `ge=64, le=512`. -/
def validTTSRequest (r : TTSRequest) : Bool :=
  decide (1 ≤ r.text.length) && decide (r.text.length ≤ 5000) &&
  decide ((1/10 : ℚ) ≤ r.temperature) && decide (r.temperature ≤ (3/2 : ℚ)) &&
  decide ((64 : ℤ) ≤ r.max_chars_chunk) && decide (r.max_chars_chunk ≤ (512 : ℤ))

/-- `HealthResponse` pydantic model. -/
structure HealthResponse where
  status : String
  model : String
  default_voice : String
  uptime_seconds : ℚ
deriving DecidableEq

/-- `GET /api/health` handler.  `tts` is the global model handle
(`none` before the lifespan startup assigns it), `backbone_repo` and
`default_voice` the environment configuration, `now - start_time` the
uptime: `status = "ok" if tts is not None else "loading"`. -/
def health (tts : Option FastVieNeuTTS) (backbone_repo default_voice : String)
    (now start_time : ℚ) : HealthResponse :=
  { status := match tts with
      | some _ => "ok"
      | none => "loading"
    model := backbone_repo
    default_voice := default_voice
    uptime_seconds := roundTo 1 (now - start_time) }

/-- `VoiceInfo` pydantic model, the element type of the `GET /api/voices`
response. -/
structure VoiceInfo where
  id : String
  description : String
  ref_text : String
deriving DecidableEq

/-- Outcome of a handler: a value, or an `HTTPException(status, detail)`. -/
inductive ApiResult (α : Type) where
  | ok : α → ApiResult α
  | httpError : Nat → String → ApiResult α
deriving DecidableEq

/-- `GET /api/voices` handler: 503 while `tts is None`; otherwise one
`VoiceInfo` per `(desc, vid)` of `tts.list_preset_voices()`, whose
`ref_text` is `tts.get_preset_voice(vid).get("text", "")`, defaulting to
`""` when that lookup raises. -/
def list_voices (tts : Option FastVieNeuTTS) : ApiResult (List VoiceInfo) :=
  match tts with
  | none => .httpError 503 "Model not loaded yet"
  | some t =>
      .ok (t.list_preset_voices.map (fun dv =>
        let ref_text := match t.get_preset_voice dv.2 with
          | .ok voice_data => voice_data.text.getD ""
          | .error _ => ""
        { id := dv.2, description := dv.1, ref_text := ref_text }))

/-- `voice_id = req.voice or DEFAULT_VOICE`: Python `or` takes the default
when `req.voice` is falsy, i.e. `None` or the empty string. -/
def resolveVoice (voice : Option String) (default_voice : String) : String :=
  match voice with
  | none => default_voice
  | some v => if v = "" then default_voice else v

/-- Python `repr` of a list of strings, as an f-string interpolates it
(`f"... {available_ids}"`), escaping inside the strings ignored. -/
def pyStrListRepr (ids : List String) : String :=
  "[" ++ String.intercalate ", " (ids.map (fun s => "\x27" ++ s ++ "\x27")) ++ "]"

/-- Outcome of `POST /api/tts`: a streamed waveform with its sample rate,
or an `HTTPException(status, detail)`. -/
inductive SynthOutcome where
  | audio : List ℚ → Nat → SynthOutcome
  | httpError : Nat → String → SynthOutcome
deriving DecidableEq

/-- `POST /api/tts` handler body (after pydantic validation).  Returns the
outcome paired with the number of `tts.infer` invocations made.  Mirrors
`synthesize`: 503 while `tts is None`; resolve the voice; 400 when the
resolved id is not among the preset ids; run `get_preset_voice`,
`voice_data["text"]` and `infer` inside `try`, mapping a raised `e` to
500 with detail `"Synthesis failed: " + str(e)` (an indexing `KeyError`
on a missing `"text"` key raises `'text'` before `infer` runs); a `None`
or empty waveform gives 500 "Failed to generate audio"; otherwise the
waveform is streamed at the fixed 24000 Hz rate. -/
def synthesize (tts : Option FastVieNeuTTS) (default_voice : String)
    (req : TTSRequest) : SynthOutcome × Nat :=
  match tts with
  | none => (.httpError 503 "Model not loaded yet", 0)
  | some t =>
      let voice_id := resolveVoice req.voice default_voice
      let available_ids := t.list_preset_voices.map (fun dv => dv.2)
      if voice_id ∉ available_ids then
        (.httpError 400 ("Voice \x27" ++ voice_id ++ "\x27 not found. Available: " ++
          pyStrListRepr available_ids), 0)
      else
        match t.get_preset_voice voice_id with
        | .error e => (.httpError 500 ("Synthesis failed: " ++ e), 0)
        | .ok voice_data =>
            match voice_data.text with
            | none => (.httpError 500 "Synthesis failed: \x27text\x27", 0)
            | some ref_text =>
                match t.infer req.text voice_data.codes ref_text
                    req.temperature req.max_chars_chunk with
                | .error e => (.httpError 500 ("Synthesis failed: " ++ e), 1)
                | .ok none => (.httpError 500 "Failed to generate audio", 1)
                | .ok (some audio_wav) =>
                    if audio_wav.length = 0 then
                      (.httpError 500 "Failed to generate audio", 1)
                    else
                      (.audio audio_wav 24000, 1)

/-- The full `POST /api/tts` endpoint: FastAPI runs the pydantic field
validation of `TTSRequest` before the handler; an invalid request is
rejected with a validation error and the handler (hence the model) never
runs. -/
def tts_endpoint (tts : Option FastVieNeuTTS) (default_voice : String)
    (req : TTSRequest) : SynthOutcome × Nat :=
  if validTTSRequest req then synthesize tts default_voice req
  else (.httpError 422 "request validation failed", 0)

end VieNeu

/-! ## Transcription service (`src/whisper/app.py`) -/

namespace Whisper

/-- A segment as the model yields it: `seg.start`, `seg.end`, `seg.text`. -/
structure RawSegment where
  start : ℚ
  «end» : ℚ
  text : String
deriving DecidableEq

/-- The `info` object returned beside the segments. -/
structure TranscriptionInfo where
  language : String
  language_probability : ℚ
  duration : ℚ
deriving DecidableEq

/-- The opaque `WhisperModel` handle: `transcribe(audio_path, language,
task)` (the fixed `vad_filter` arguments elided, being constants) yields
the eagerly collected segment list and the info, or raises. -/
structure WhisperModel where
  transcribe : String → Option String → String →
    Except String (List RawSegment × TranscriptionInfo)

/-- A segment of the response: timestamps rounded to 2 decimals, text
stripped. -/
structure OutSegment where
  start : ℚ
  «end» : ℚ
  text : String
deriving DecidableEq

/-- `do_transcribe(audio_path, language, task)`: map `"auto"` to `None`,
call the model, and collect per segment
`{"start": round(seg.start, 2), "end": round(seg.end, 2),
"text": seg.text.strip()}` beside the stripped-text list `full_text`. -/
def do_transcribe (model : WhisperModel) (audio_path language task : String) :
    Except String (List OutSegment × List String × TranscriptionInfo) :=
  let lang := if language ≠ "auto" then some language else none
  match model.transcribe audio_path lang task with
  | .error e => .error e
  | .ok (segments, info) =>
      .ok (segments.map (fun seg =>
             { start := roundTo 2 seg.start
               «end» := roundTo 2 seg.«end»
               text := pyStrip seg.text }),
           segments.map (fun seg => pyStrip seg.text),
           info)

/-- The JSON body of a successful `POST /api/transcribe` response. -/
structure TranscribeResponse where
  text : String
  segments : List OutSegment
  language : String
  language_probability : ℚ
  duration : ℚ
  process_time : ℚ
deriving DecidableEq

/-- How a `POST /api/transcribe` request ends: the JSON body, an
`HTTPException(500, str(e))` raised from the `try` block, or an
exception escaping the handler before the `try` block is entered. -/
inductive TranscribeExit where
  | success : TranscribeResponse → TranscribeExit
  | httpError : Nat → String → TranscribeExit
  | unhandled : String → TranscribeExit
deriving DecidableEq

/-- `POST /api/transcribe` handler.  `tempfile.NamedTemporaryFile(delete=False)`
creates the transient file before anything else, so the second component
reports whether that file still exists when the handler exits.
`read_result` models `await file.read()` (which may raise), `write_ok`
whether `tmp.write(content)` succeeds; both run inside the `with` block,
whose exit closes but — `delete=False` — does not remove the file.  Only
then does the `try ... finally: os.unlink(tmp_path)` begin, around
`do_transcribe` with the form defaults `language="vi"`,
`task="transcribe"`; `elapsed` is the measured wall time. -/
def transcribe_api (model : WhisperModel) (read_result : Except String (List Nat))
    (write_ok : Bool) (tmp_path : String) (language task : Option String)
    (elapsed : ℚ) : TranscribeExit × Bool :=
  match read_result with
  | .error e => (.unhandled e, true)
  | .ok _content =>
      if write_ok then
        match do_transcribe model tmp_path (language.getD "vi") (task.getD "transcribe") with
        | .error e => (.httpError 500 e, false)
        | .ok (result_segments, full_text, info) =>
            (.success
              { text := String.intercalate " " full_text
                segments := result_segments
                language := info.language
                language_probability := roundTo 3 info.language_probability
                duration := roundTo 2 info.duration
                process_time := roundTo 2 elapsed }, false)
      else (.unhandled "write failed", true)

end Whisper

/-! ## Concrete instances used by witnesses and counterexamples -/

/-- A preset voice with codes and reference text. -/
def sampleVoiceData : VieNeu.VoiceData :=
  { codes := [10, 20, 30], text := some "xin chao" }

/-- A TTS handle with two presets whose inference succeeds. -/
def sampleTTS : VieNeu.FastVieNeuTTS :=
  { list_preset_voices := [("Giong nu", "Doan"), ("Giong nam", "Vinh")]
    get_preset_voice := fun vid =>
      if vid = "Doan" then .ok sampleVoiceData else .error ("KeyError: " ++ vid)
    infer := fun _ _ _ _ _ => .ok (some [1, 2]) }

/-- A TTS handle whose inference raises. -/
def failingTTS : VieNeu.FastVieNeuTTS :=
  { list_preset_voices := [("Giong nu", "Doan")]
    get_preset_voice := fun _ => .ok sampleVoiceData
    infer := fun _ _ _ _ _ => .error "CUDA out of memory" }

/-- A well-formed TTS request addressed to a voice id outside the presets. -/
def unknownVoiceReq : VieNeu.TTSRequest :=
  { text := "xin chao", voice := some "Nobody", temperature := 1
    max_chars_chunk := 256, format := "wav" }

/-- A well-formed TTS request with no voice field. -/
def defaultVoiceReq : VieNeu.TTSRequest :=
  { text := "xin chao", voice := none, temperature := 1
    max_chars_chunk := 256, format := "wav" }

/-- The raw segments a concrete whisper run yields: well-formed
(`start ≤ end`) and ordered by start time. -/
def rawSegments : List Whisper.RawSegment :=
  [{ start := 0, «end» := 2, text := " xin chao " },
   { start := 2, «end» := 3, text := "the gioi" }]

/-- The info object of that run. -/
def sampleInfo : Whisper.TranscriptionInfo :=
  { language := "vi", language_probability := 1, duration := 3 }

/-- A whisper handle returning the fixed well-ordered segments. -/
def sampleWhisper : Whisper.WhisperModel :=
  { transcribe := fun _ _ _ => .ok (rawSegments, sampleInfo) }

/-- The segments `do_transcribe` builds from `rawSegments`. -/
def roundedSegments : List Whisper.OutSegment :=
  [{ start := roundTo 2 (0 : ℚ), «end» := roundTo 2 (2 : ℚ), text := pyStrip " xin chao " },
   { start := roundTo 2 (2 : ℚ), «end» := roundTo 2 (3 : ℚ), text := pyStrip "the gioi" }]

/-- The response `sampleWhisper` produces through `transcribe_api`. -/
def sampleResponse : Whisper.TranscribeResponse :=
  { text := String.intercalate " " [pyStrip " xin chao ", pyStrip "the gioi"]
    segments := roundedSegments
    language := "vi"
    language_probability := roundTo 3 (1 : ℚ)
    duration := roundTo 2 (3 : ℚ)
    process_time := roundTo 2 (0 : ℚ) }

/-- A whisper handle that only answers when called with no language
(auto-detection) and raises for every concrete language argument. -/
def autoOnlyWhisper : Whisper.WhisperModel :=
  { transcribe := fun _ lg _ =>
      match lg with
      | none => .ok (rawSegments, sampleInfo)
      | some l => .error ("unexpected language argument " ++ l) }

/-- A whisper handle that only answers when called with language "en"
and raises for every other argument. -/
def enOnlyWhisper : Whisper.WhisperModel :=
  { transcribe := fun _ lg _ =>
      match lg with
      | some "en" => .ok (rawSegments, sampleInfo)
      | _ => .error "unexpected language argument" }

/-- Requests at and beyond the documented validation boundaries. -/
def mkReq (n : ℕ) (temp : ℚ) (mc : ℤ) : VieNeu.TTSRequest :=
  { text := String.mk (List.replicate n 'a'), voice := none, temperature := temp
    max_chars_chunk := mc, format := "wav" }

/-! ## Helper lemmas -/

theorem floor_le_roundHalfEven (x : ℚ) : ⌊x⌋ ≤ roundHalfEven x := by
  unfold roundHalfEven
  split_ifs <;> omega

theorem roundHalfEven_le_floor_succ (x : ℚ) : roundHalfEven x ≤ ⌊x⌋ + 1 := by
  unfold roundHalfEven
  split_ifs <;> omega

theorem roundHalfEven_mono {a b : ℚ} (h : a ≤ b) :
    roundHalfEven a ≤ roundHalfEven b := by
  rcases lt_or_le ⌊a⌋ ⌊b⌋ with hf | hf
  · calc roundHalfEven a ≤ ⌊a⌋ + 1 := roundHalfEven_le_floor_succ a
      _ ≤ ⌊b⌋ := by omega
      _ ≤ roundHalfEven b := floor_le_roundHalfEven b
  · have hfe : ⌊a⌋ = ⌊b⌋ := le_antisymm (Int.floor_le_floor h) hf
    unfold roundHalfEven
    rw [hfe]
    split_ifs <;> first | omega | linarith

theorem roundTo_mono (digits : ℕ) {a b : ℚ} (h : a ≤ b) :
    roundTo digits a ≤ roundTo digits b := by
  unfold roundTo
  have hpow : (0 : ℚ) < 10 ^ digits := by positivity
  have h1 : a * 10 ^ digits ≤ b * 10 ^ digits :=
    mul_le_mul_of_nonneg_right h (le_of_lt hpow)
  have h2 : ((roundHalfEven (a * 10 ^ digits) : ℤ) : ℚ) ≤
      ((roundHalfEven (b * 10 ^ digits) : ℤ) : ℚ) := by
    exact_mod_cast roundHalfEven_mono h1
  exact div_le_div_of_nonneg_right h2 hpow.le |>.trans_eq rfl

/-! ## C1 -/

/-- C1: the claim states that before the model handle is initialized the
health status is "ok" and once it exists it is "loading".  False on the
code: with `tts = None` the handler returns status "loading". -/
theorem health_not_ok_before_model_loaded :
    (VieNeu.health none "pnnbao-ump/VieNeu-TTS" "Doan" 7 0).status ≠ "ok" := by
  decide

/-- C1 (amended): the health status is "loading" until the model handle
exists, and "ok" once it exists. -/
theorem health_status_reflects_model_handle (repo dv : String) (now st : ℚ) :
    (VieNeu.health none repo dv now st).status = "loading" ∧
    ∀ t : VieNeu.FastVieNeuTTS,
      (VieNeu.health (some t) repo dv now st).status = "ok" :=
  ⟨rfl, fun _ => rfl⟩

/-! ## C2 -/

/-- C2: the claim states the transient upload file is removed on every
exit path, including failures while receiving the uploaded bytes.  False
on the code: when `await file.read()` raises, the `with` block only
closes the `delete=False` temporary file and the handler exits with the
file still on disk. -/
theorem transcribe_tmp_file_left_behind :
    Whisper.transcribe_api sampleWhisper (.error "client disconnected") true
      "/tmp/audio.wav" (some "vi") (some "transcribe") 0 =
    (.unhandled "client disconnected", true) := rfl

/-- C2 (amended): on every exit path reached once the uploaded bytes have
been received and written — transcription success or failure alike — the
transient file is removed before the handler returns. -/
theorem transcribe_tmp_file_removed_after_upload (model : Whisper.WhisperModel)
    (content : List Nat) (tmp_path : String) (language task : Option String)
    (elapsed : ℚ) :
    (Whisper.transcribe_api model (.ok content) true tmp_path language task
      elapsed).2 = false := by
  cases hdo : Whisper.do_transcribe model tmp_path (language.getD "vi")
      (task.getD "transcribe") with
  | error e => simp [Whisper.transcribe_api, hdo]
  | ok v =>
      obtain ⟨a, b, c⟩ := v
      simp [Whisper.transcribe_api, hdo]

/-! ## C9 -/

/-- C9: a request whose voice field is the empty string is not validated
against the preset list; it behaves exactly as if the voice field had
been omitted, falling back to the configured default voice. -/
theorem empty_voice_behaves_as_omitted (tts : Option VieNeu.FastVieNeuTTS)
    (dv txt : String) (temp : ℚ) (mc : ℤ) (fmt : String) :
    VieNeu.synthesize tts dv
      { text := txt, voice := some "", temperature := temp
        max_chars_chunk := mc, format := fmt } =
    VieNeu.synthesize tts dv
      { text := txt, voice := none, temperature := temp
        max_chars_chunk := mc, format := fmt } := by
  cases tts with
  | none => rfl
  | some t => rfl

/-! ## C10 -/

/-- C10: an omitted language form field behaves exactly as the supplied
value "vi" (the default is "vi", not auto-detection); `do_transcribe`
consults the model only at language argument `None` when the literal
"auto" was supplied, and only at `Some lang` — the string passed through
unchanged — for any other supplied language. -/
theorem transcribe_language_handling :
    (∀ (m : Whisper.WhisperModel) rd wr tp task e,
      Whisper.transcribe_api m rd wr tp none task e =
      Whisper.transcribe_api m rd wr tp (some "vi") task e) ∧
    (∀ (m1 m2 : Whisper.WhisperModel) (p t : String),
      m1.transcribe p none t = m2.transcribe p none t →
      Whisper.do_transcribe m1 p "auto" t = Whisper.do_transcribe m2 p "auto" t) ∧
    (∀ lang : String, lang ≠ "auto" →
      ∀ (m1 m2 : Whisper.WhisperModel) (p t : String),
      m1.transcribe p (some lang) t = m2.transcribe p (some lang) t →
      Whisper.do_transcribe m1 p lang t = Whisper.do_transcribe m2 p lang t) := by
  refine ⟨fun m rd wr tp task e => rfl, ?_, ?_⟩
  · intro m1 m2 p t h
    simp only [Whisper.do_transcribe, ne_eq, not_true_eq_false, if_false, ite_false]
    rw [h]
  · intro lang hlang m1 m2 p t h
    simp only [Whisper.do_transcribe, ne_eq, hlang, not_false_eq_true, if_true, ite_true]
    rw [h]

/-- C10 witness: the parts with hypotheses applied at concrete inputs.
`sampleWhisper` answers every argument; `enOnlyWhisper` (resp.
`autoOnlyWhisper`) agrees with it only at the argument `Some "en"`
(resp. `None`), yet a request with language "en" (resp. "auto") cannot
tell the handles apart — the model is consulted exactly there. -/
theorem transcribe_language_handling_witness :
    Whisper.do_transcribe sampleWhisper "/tmp/audio.wav" "en" "transcribe" =
      Whisper.do_transcribe enOnlyWhisper "/tmp/audio.wav" "en" "transcribe" ∧
    Whisper.do_transcribe sampleWhisper "/tmp/audio.wav" "auto" "transcribe" =
      Whisper.do_transcribe autoOnlyWhisper "/tmp/audio.wav" "auto" "transcribe" :=
  ⟨transcribe_language_handling.2.2 "en" (by decide) sampleWhisper enOnlyWhisper
      "/tmp/audio.wav" "transcribe" rfl,
    transcribe_language_handling.2.1 sampleWhisper autoOnlyWhisper
      "/tmp/audio.wav" "transcribe" rfl⟩

/-! ## C3 -/

/-- C3: a request whose resolved voice id is not among the preset ids
fails with HTTP 400 whose detail lists the available ids, and the model
inference function is never invoked (invocation count 0). -/
theorem synthesize_unknown_voice_rejected (t : VieNeu.FastVieNeuTTS)
    (dv : String) (req : VieNeu.TTSRequest)
    (h : VieNeu.resolveVoice req.voice dv ∉
      t.list_preset_voices.map (fun p => p.2)) :
    VieNeu.synthesize (some t) dv req =
      (.httpError 400 ("Voice \x27" ++ VieNeu.resolveVoice req.voice dv ++
          "\x27 not found. Available: " ++
          VieNeu.pyStrListRepr (t.list_preset_voices.map (fun p => p.2))), 0) := by
  simp [VieNeu.synthesize, h]

/-- C3 witness: the voice id "Nobody" is rejected against the two-preset
handle with a 400 listing the preset ids, at zero inference calls. -/
theorem synthesize_unknown_voice_rejected_witness :
    VieNeu.synthesize (some sampleTTS) "Doan" unknownVoiceReq =
      (.httpError 400
        "Voice \x27Nobody\x27 not found. Available: [\x27Doan\x27, \x27Vinh\x27]", 0) :=
  synthesize_unknown_voice_rejected sampleTTS "Doan" unknownVoiceReq (by decide)

/-! ## C8 -/

/-- C8: with the model loaded, `GET /api/voices` returns exactly one entry
per preset voice, in the preset enumeration order (same ids, same
descriptions, in order), and an entry whose metadata lookup raises is
still present with reference text defaulted to the empty string. -/
theorem list_voices_fail_open (t : VieNeu.FastVieNeuTTS) :
    ∃ vs : List VieNeu.VoiceInfo,
      VieNeu.list_voices (some t) = .ok vs ∧
      vs.map (fun v => v.id) = t.list_preset_voices.map (fun p => p.2) ∧
      vs.map (fun v => v.description) = t.list_preset_voices.map (fun p => p.1) ∧
      ∀ v ∈ vs, ∀ e, t.get_preset_voice v.id = .error e → v.ref_text = "" := by
  refine ⟨_, rfl, ?_, ?_, ?_⟩
  · rw [List.map_map]; rfl
  · rw [List.map_map]; rfl
  · intro v hv e he
    rw [List.mem_map] at hv
    obtain ⟨p, hp, rfl⟩ := hv
    dsimp only at he ⊢
    rw [he]

/-! ## C5 -/

theorem mkReq_text_length (n : ℕ) (temp : ℚ) (mc : ℤ) :
    (mkReq n temp mc).text.length = n := by
  simp only [mkReq, String.length, List.length_replicate]

theorem mkReq_temperature (n : ℕ) (temp : ℚ) (mc : ℤ) :
    (mkReq n temp mc).temperature = temp := rfl

theorem mkReq_mc (n : ℕ) (temp : ℚ) (mc : ℤ) :
    (mkReq n temp mc).max_chars_chunk = mc := rfl

theorem validTTSRequest_eq_true (r : VieNeu.TTSRequest) :
    VieNeu.validTTSRequest r = true ↔
      (1 ≤ r.text.length ∧ r.text.length ≤ 5000 ∧
       (1/10 : ℚ) ≤ r.temperature ∧ r.temperature ≤ (3/2 : ℚ) ∧
       (64 : ℤ) ≤ r.max_chars_chunk ∧ r.max_chars_chunk ≤ 512) := by
  simp [VieNeu.validTTSRequest, and_assoc]

/-- C5: `POST /api/tts` passes a request to the handler exactly when the
text length is in [1, 5000], the temperature in [1/10, 3/2] and
max_chars_chunk in [64, 512]; out-of-bounds requests are rejected by the
validation layer with zero model calls.  In particular length 5000 and
temperatures 1/10 and 3/2 are accepted while length 5001 and
temperatures 9/100 and 151/100 are rejected. -/
theorem tts_request_validation_bounds :
    (∀ (tts : Option VieNeu.FastVieNeuTTS) (dv : String) (r : VieNeu.TTSRequest),
      (1 ≤ r.text.length ∧ r.text.length ≤ 5000 ∧
       (1/10 : ℚ) ≤ r.temperature ∧ r.temperature ≤ (3/2 : ℚ) ∧
       (64 : ℤ) ≤ r.max_chars_chunk ∧ r.max_chars_chunk ≤ 512) →
      VieNeu.tts_endpoint tts dv r = VieNeu.synthesize tts dv r) ∧
    (∀ (tts : Option VieNeu.FastVieNeuTTS) (dv : String) (r : VieNeu.TTSRequest),
      ¬ (1 ≤ r.text.length ∧ r.text.length ≤ 5000 ∧
         (1/10 : ℚ) ≤ r.temperature ∧ r.temperature ≤ (3/2 : ℚ) ∧
         (64 : ℤ) ≤ r.max_chars_chunk ∧ r.max_chars_chunk ≤ 512) →
      VieNeu.tts_endpoint tts dv r = (.httpError 422 "request validation failed", 0)) ∧
    VieNeu.validTTSRequest (mkReq 5000 1 256) = true ∧
    VieNeu.validTTSRequest (mkReq 5001 1 256) = false ∧
    VieNeu.validTTSRequest (mkReq 100 (1/10) 256) = true ∧
    VieNeu.validTTSRequest (mkReq 100 (3/2) 256) = true ∧
    VieNeu.validTTSRequest (mkReq 100 (9/100) 256) = false ∧
    VieNeu.validTTSRequest (mkReq 100 (151/100) 256) = false := by
  refine ⟨?_, ?_, ?_, ?_, ?_, ?_, ?_, ?_⟩
  · intro tts dv r h
    unfold VieNeu.tts_endpoint
    rw [if_pos ((validTTSRequest_eq_true r).mpr h)]
  · intro tts dv r hn
    unfold VieNeu.tts_endpoint
    rw [if_neg (fun hc => hn ((validTTSRequest_eq_true r).mp hc))]
  · rw [validTTSRequest_eq_true, mkReq_text_length, mkReq_temperature, mkReq_mc]
    norm_num
  · rw [Bool.eq_false_iff]
    intro hc
    rw [validTTSRequest_eq_true, mkReq_text_length] at hc
    norm_num at hc
  · rw [validTTSRequest_eq_true, mkReq_text_length, mkReq_temperature, mkReq_mc]
    norm_num
  · rw [validTTSRequest_eq_true, mkReq_text_length, mkReq_temperature, mkReq_mc]
    norm_num
  · rw [Bool.eq_false_iff]
    intro hc
    rw [validTTSRequest_eq_true, mkReq_text_length, mkReq_temperature] at hc
    norm_num at hc
  · rw [Bool.eq_false_iff]
    intro hc
    rw [validTTSRequest_eq_true, mkReq_text_length, mkReq_temperature] at hc
    norm_num at hc

/-! ## C6 -/

/-- C6: for a request whose resolved voice is a known preset (with its
voice data and reference text resolvable), a model inference that raises
maps to HTTP 500 with the exception's message surfaced in the detail,
and an inference returning `None` or an empty waveform maps to HTTP 500;
in each case exactly one inference call was made. -/
theorem synthesize_inference_failures (t : VieNeu.FastVieNeuTTS) (dv : String)
    (req : VieNeu.TTSRequest) (vd : VieNeu.VoiceData) (rt : String)
    (hmem : VieNeu.resolveVoice req.voice dv ∈
      t.list_preset_voices.map (fun p => p.2))
    (hget : t.get_preset_voice (VieNeu.resolveVoice req.voice dv) = .ok vd)
    (htext : vd.text = some rt) :
    (∀ e, t.infer req.text vd.codes rt req.temperature req.max_chars_chunk =
        .error e →
      VieNeu.synthesize (some t) dv req =
        (.httpError 500 ("Synthesis failed: " ++ e), 1)) ∧
    (t.infer req.text vd.codes rt req.temperature req.max_chars_chunk =
        .ok none →
      VieNeu.synthesize (some t) dv req =
        (.httpError 500 "Failed to generate audio", 1)) ∧
    (t.infer req.text vd.codes rt req.temperature req.max_chars_chunk =
        .ok (some []) →
      VieNeu.synthesize (some t) dv req =
        (.httpError 500 "Failed to generate audio", 1)) := by
  refine ⟨fun e he => ?_, fun he => ?_, fun he => ?_⟩ <;>
    simp [VieNeu.synthesize, hmem, hget, htext, he]

/-- C6 witness: against the one-preset handle whose inference raises
"CUDA out of memory", the default-voice request fails with 500 and the
message in the detail, after exactly one inference call. -/
theorem synthesize_inference_failures_witness :
    VieNeu.synthesize (some failingTTS) "Doan" defaultVoiceReq =
      (.httpError 500 "Synthesis failed: CUDA out of memory", 1) :=
  (synthesize_inference_failures failingTTS "Doan" defaultVoiceReq
      sampleVoiceData "xin chao" (by decide) rfl rfl).1
    "CUDA out of memory" rfl

/-! ## C4 -/

theorem do_transcribe_full_text_eq (m : Whisper.WhisperModel) (p l t : String)
    (out : List Whisper.OutSegment) (ft : List String)
    (info : Whisper.TranscriptionInfo)
    (h : Whisper.do_transcribe m p l t = .ok (out, ft, info)) :
    ft = out.map (fun s => s.text) := by
  unfold Whisper.do_transcribe at h
  dsimp only at h
  rcases hm : m.transcribe p (if l ≠ "auto" then some l else none) t with e | v
  · rw [hm] at h
    exact absurd h (by simp)
  · obtain ⟨raws, i⟩ := v
    rw [hm] at h
    rw [Except.ok.injEq, Prod.mk.injEq, Prod.mk.injEq] at h
    obtain ⟨hout, hft, hinfo⟩ := h
    rw [← hout, ← hft, List.map_map]
    rfl

/-- C4: every successful `POST /api/transcribe` response has its full-text
field equal to the per-segment (stripped) text fields joined with single
spaces in segment order. -/
theorem transcribe_text_joins_segments (m : Whisper.WhisperModel)
    (rd : Except String (List Nat)) (wr : Bool) (tp : String)
    (language task : Option String) (e : ℚ) (resp : Whisper.TranscribeResponse)
    (h : (Whisper.transcribe_api m rd wr tp language task e).1 = .success resp) :
    resp.text = String.intercalate " " (resp.segments.map (fun s => s.text)) := by
  rcases rd with msg | content
  · simp [Whisper.transcribe_api] at h
  · rcases wr with _ | _
    · simp [Whisper.transcribe_api] at h
    · rcases hdo : Whisper.do_transcribe m tp (language.getD "vi") (task.getD "transcribe")
        with msg | ⟨segs, ft, info⟩
      · simp [Whisper.transcribe_api, hdo] at h
      · have hft := do_transcribe_full_text_eq m tp (language.getD "vi")
          (task.getD "transcribe") segs ft info hdo
        simp [Whisper.transcribe_api, hdo] at h
        rw [← h, hft]

/-- C4 witness: the concrete two-segment run through `transcribe_api`
satisfies the join property. -/
theorem transcribe_text_joins_segments_witness :
    sampleResponse.text =
      String.intercalate " " (sampleResponse.segments.map (fun s => s.text)) :=
  transcribe_text_joins_segments sampleWhisper (.ok [0]) true "/tmp/audio.wav"
    none none 0 sampleResponse rfl

/-! ## C7 -/

/-- C7: when the underlying model only yields segment lists whose entries
satisfy start ≤ end and are monotonically ordered by start time, every
successful `do_transcribe` result preserves both properties through the
2-decimal rounding: the returned segments are sorted by start time and
each satisfies start ≤ end. -/
theorem do_transcribe_segments_ordered (m : Whisper.WhisperModel)
    (hm : ∀ (p : String) (lg : Option String) (t : String)
        (raws : List Whisper.RawSegment) (info : Whisper.TranscriptionInfo),
      m.transcribe p lg t = .ok (raws, info) →
      (∀ s ∈ raws, s.start ≤ s.«end») ∧
      raws.Pairwise (fun a b => a.start ≤ b.start))
    (p l t : String) (out : List Whisper.OutSegment) (ft : List String)
    (info : Whisper.TranscriptionInfo)
    (h : Whisper.do_transcribe m p l t = .ok (out, ft, info)) :
    (∀ s ∈ out, s.start ≤ s.«end») ∧
    out.Pairwise (fun a b => a.start ≤ b.start) := by
  unfold Whisper.do_transcribe at h
  dsimp only at h
  rcases hq : m.transcribe p (if l ≠ "auto" then some l else none) t with e | v
  · rw [hq] at h
    exact absurd h (by simp)
  · obtain ⟨raws, i⟩ := v
    rw [hq] at h
    rw [Except.ok.injEq, Prod.mk.injEq, Prod.mk.injEq] at h
    obtain ⟨hout, hft, hinfo⟩ := h
    obtain ⟨hse, hord⟩ := hm _ _ _ _ _ hq
    rw [← hout]
    constructor
    · intro s hs
      rw [List.mem_map] at hs
      obtain ⟨raw, hraw, rfl⟩ := hs
      exact roundTo_mono 2 (hse raw hraw)
    · rw [List.pairwise_map]
      exact hord.imp (fun hab => roundTo_mono 2 hab)

/-- C7 witness: the rounded segments of the concrete well-ordered run are
sorted by start time with start ≤ end in each. -/
theorem do_transcribe_segments_ordered_witness :
    (∀ s ∈ roundedSegments, s.start ≤ s.«end») ∧
    roundedSegments.Pairwise (fun a b => a.start ≤ b.start) :=
  do_transcribe_segments_ordered sampleWhisper
    (by
      intro p lg t raws info h
      injection h with h1
      rw [Prod.mk.injEq] at h1
      obtain ⟨h2, h3⟩ := h1
      rw [← h2]
      exact ⟨by decide, by decide⟩)
    "/tmp/audio.wav" "vi" "transcribe" roundedSegments
    [pyStrip " xin chao ", pyStrip "the gioi"] sampleInfo rfl
